import Mathlib

/-!
Shallow embedding of MyPIVXWallet's network layer (`network.js`, given as
`src/unnamed/part_000`) and the masternode-related parts of
`src/scripts/global.js`. Stateful JavaScript methods become pure functions
from an explicit state (plus the parsed HTTP response they consumed) to a
new state together with the events they emit; JavaScript numbers that hold
block heights and satoshi amounts become `Int`, explorer JSON decimal
values become `Rat`.
-/

namespace MPW

/-- Constant `COIN` from `chain_params.js` (not under `src/`): the number of satoshis
in one coin, 10^8 for PIVX. Its concrete value is irrelevant to the theorems
below apart from being nonzero. -/
def COIN : ℚ := 100000000

/-- Events emitted through `this.eventEmitter.emit(...)`. -/
inductive Event where
  /-- Emitted by `emit('network-toggle', value)`. -/
  | networkToggle (value : Bool)
  /-- Emitted by `emit('sync-status', 'start')`. -/
  | syncStatus
  /-- Emitted by `emit('utxo', ...)`. -/
  | utxoFetched
  /-- Emitted by `emit('transaction-sent', ok, err?)`; the success emit passes no
  second argument, modelled as `none`. -/
  | transactionSent (ok : Bool) (err : Option String)
  deriving DecidableEq, Repr

/-- A master key as the network layer sees it: only `isHD` and
`isHardwareWallet` are inspected; `keyData` stands for the key material so
that distinct keys are distinct values. -/
structure MasterKey where
  isHD : Bool
  isHardwareWallet : Bool
  keyData : String
  deriving DecidableEq, Repr

/-- A staking-reward record as built by `getStakingRewards`:
`{id: tx.txid, time: tx.blockTime, blockHeight: tx.blockHeight, amount}`. -/
structure StakingReward where
  id : String
  time : Int
  blockHeight : Int
  amount : ℚ
  deriving DecidableEq, Repr

/-- The mutable fields of an `ExplorerNetwork` object: `_enabled`,
`masterKey` and `lastWallet` from the `Network` base class, `strUrl`,
`blocks` and `arrRewards` from `ExplorerNetwork` itself. -/
structure ExplorerNetwork where
  strUrl : String
  enabled : Bool
  masterKey : Option MasterKey
  lastWallet : Int
  blocks : Int
  arrRewards : List StakingReward
  deriving DecidableEq, Repr

/-- The `enabled` setter of `Network`: if the assigned value differs from
`_enabled` it emits `'network-toggle'` with the new value and stores it;
otherwise it does nothing. Returns the new state and the emitted events. -/
def Network.setEnabled (s : ExplorerNetwork) (value : Bool) :
    ExplorerNetwork × List Event :=
  if value ≠ s.enabled then
    ({ s with enabled := value }, [Event.networkToggle value])
  else
    (s, [])

/-- Method `Network.enable()`: assigns `enabled = true`. -/
def Network.enable (s : ExplorerNetwork) : ExplorerNetwork × List Event :=
  Network.setEnabled s true

/-- Method `Network.disable()`: assigns `enabled = false`. -/
def Network.disable (s : ExplorerNetwork) : ExplorerNetwork × List Event :=
  Network.setEnabled s false

/-- Method `ExplorerNetwork.error()`: if the network is enabled, disable it and
raise one alert (`createAlert('warning', ...)`); otherwise do nothing.
Returns the new state, emitted events, and the number of alerts raised. -/
def ExplorerNetwork.errorHandler (s : ExplorerNetwork) :
    ExplorerNetwork × List Event × Nat :=
  if s.enabled then
    let r := Network.disable s
    (r.1, r.2, 1)
  else
    (s, [], 0)

/-- Method `ExplorerNetwork.getBlockCount()`, given the `backend.blocks` height
parsed from the explorer response: when the fetched height is strictly
greater than the cached `this.blocks` it stores it, emits `'sync-status'`
and calls `this.getUTXOs()`; otherwise nothing happens. Returns the new
state, the emitted events, and whether `getUTXOs` was invoked. -/
def ExplorerNetwork.getBlockCount (s : ExplorerNetwork) (fetched : Int) :
    ExplorerNetwork × List Event × Bool :=
  if fetched > s.blocks then
    ({ s with blocks := fetched }, [Event.syncStatus], true)
  else
    (s, [], false)

/-- Method `ExplorerNetwork.setMasterKey(masterKey)`: stores the key and clears
`arrRewards`. -/
def ExplorerNetwork.setMasterKey (s : ExplorerNetwork) (k : MasterKey) :
    ExplorerNetwork :=
  { s with masterKey := some k, arrRewards := [] }

/-! ### `getUTXOFullInfo` -/

/-- Constants `Mempool.PENDING` / `Mempool.CONFIRMED` (both of `mempool.js`). -/
inductive UtxoStatus where
  | PENDING
  | CONFIRMED
  deriving DecidableEq, Repr

/-- The `UTXO` record of `mempool.js` as the spec's data model gives it:
`{id (txid), vout, sats, script, path, height, status, isDelegate, isReward}`. -/
structure UTXO where
  id : String
  path : Option String
  sats : Int
  script : String
  vout : Int
  height : Int
  status : UtxoStatus
  isDelegate : Bool
  isReward : Bool
  deriving DecidableEq, Repr

/-- The object-formatted UTXO reference `getUTXOFullInfo` receives from the
explorer's utxo listing: `{txid, vout, path?}`. -/
structure UTXORef where
  txid : String
  vout : Nat
  path : Option String
  deriving DecidableEq, Repr

/-- The `scriptPubKey` of a `tx-specific` output. -/
structure ScriptPubKey where
  hex : String
  kind : String
  deriving DecidableEq, Repr

/-- One output of a `tx-specific` reply: decimal `value`, output index `n`,
and `scriptPubKey`. -/
structure TxSpecVout where
  value : ℚ
  n : Int
  scriptPubKey : ScriptPubKey
  deriving DecidableEq, Repr

/-- The parts of a `/api/v2/tx-specific/` reply the method reads. -/
structure TxSpecific where
  vout : List TxSpecVout
  confirmations : Int
  deriving DecidableEq, Repr

/-- JavaScript `Math.round`: round half away from zero upward, i.e.
`floor(x + 1/2)`. -/
def jsRound (x : ℚ) : Int := ⌊x + 1 / 2⌋

/-- The path rewrite of `getUTXOFullInfo`: split on `/`, overwrite index 2
with the BIP44 coin type (Ledger or not) followed by an apostrophe, join
back. (The accompanying `this.lastWallet` bump is not modelled; no claim
concerns it.) -/
def rewritePath (isHardwareWallet : Bool) (bip44Type bip44TypeLedger : Int)
    (p : String) : String :=
  let parts := p.splitOn "/"
  let t := if isHardwareWallet then bip44TypeLedger else bip44Type
  String.intercalate "/" (parts.set 2 (toString t ++ "\x27"))

/-- Method `ExplorerNetwork.getUTXOFullInfo(cUTXO)`, given the parsed
`tx-specific` reply. `cVout = cTx.vout[cUTXO.vout]`; when the selected
output's type is neither `'coldstake'` nor `'pubkeyhash'` the method
returns `null`; otherwise it builds the `UTXO`. An out-of-range index
(which in JavaScript would throw) is modelled as `none`. -/
def ExplorerNetwork.getUTXOFullInfo (s : ExplorerNetwork)
    (isHardwareWallet : Bool) (bip44Type bip44TypeLedger : Int)
    (cUTXO : UTXORef) (cTx : TxSpecific) : Option UTXO :=
  match cTx.vout.get? cUTXO.vout, cTx.vout.get? 0 with
  | some cVout, some v0 =>
    let path := cUTXO.path.map (rewritePath isHardwareWallet bip44Type bip44TypeLedger)
    let isColdStake := cVout.scriptPubKey.kind = "coldstake"
    let isStandard := cVout.scriptPubKey.kind = "pubkeyhash"
    let isReward := v0.scriptPubKey.hex = ""
    if ¬isColdStake ∧ ¬isStandard then none
    else
      some
        { id := cUTXO.txid
          path := path
          sats := jsRound (cVout.value * COIN)
          script := cVout.scriptPubKey.hex
          vout := cVout.n
          height := s.blocks - (cTx.confirmations - 1)
          status := if cTx.confirmations < 1 then UtxoStatus.PENDING
                    else UtxoStatus.CONFIRMED
          isDelegate := isColdStake
          isReward := isReward }
  | _, _ => none

/-! ### `sendTransaction` -/

/-- The blockbook reply to `/api/v2/sendtx/` as the code reads it: an
optional `result` string (the txid on success) and an optional `error`. -/
structure SendTxResponse where
  result : Option String
  error : Option String
  deriving DecidableEq, Repr

/-- Method `ExplorerNetwork.sendTransaction(hex)`, given the parsed reply:
`if (data.result && data.result.length === 64)` return `true` and emit
`'transaction-sent'` with `true`; otherwise return `false` and emit
`'transaction-sent'` with `false` and `data.error`. A present `result`
string is truthy exactly when nonempty. -/
def ExplorerNetwork.sendTransaction (data : SendTxResponse) :
    Bool × List Event :=
  match data.result with
  | some r =>
    if r ≠ "" ∧ r.length = 64 then
      (true, [Event.transactionSent true none])
    else
      (false, [Event.transactionSent false data.error])
  | none => (false, [Event.transactionSent false data.error])

/-! ### `getStakingRewards` (the `ExplorerNetwork` method) -/

/-- One entry of a transaction's `vin`/`vout` array as `txSum` reads it:
the `addresses` list and the (string) `value`, here already the integer
`parseInt` produces. -/
structure TxAddrValue where
  addresses : List String
  value : Int
  deriving DecidableEq, Repr

/-- One transaction of the explorer's `details=txs` page. -/
structure RewardTx where
  txid : String
  blockTime : Int
  blockHeight : Int
  vin : List TxAddrValue
  vout : List TxAddrValue
  deriving DecidableEq, Repr

/-- Lookup `mapPaths.get(strAddr)` is truthy exactly when the map holds the
address with a nonempty path string (the only falsy string is `''`). -/
def pathTruthy (mapPaths : List (String × String)) (addr : String) : Bool :=
  match mapPaths.lookup addr with
  | some p => p ≠ ""
  | none => false

/-- The method's `txSum`: reduce over the entries, adding `parseInt(s.value)`
for each entry whose addresses contain at least one with a truthy mapped
path and which has exactly two addresses, else adding 0. -/
def txSum (mapPaths : List (String × String)) (v : List TxAddrValue) : Int :=
  v.foldl
    (fun t s =>
      t +
        (if (s.addresses.filter (pathTruthy mapPaths)).length ≠ 0 ∧
            s.addresses.length = 2
          then s.value else 0))
    0

/-- The filter `tx.vout[0].addresses[0] === 'CoinStake TX'`; an absent
element (which in JavaScript would throw before any state change) is
treated as no match. -/
def isCoinStakeTx (tx : RewardTx) : Bool :=
  match tx.vout with
  | v0 :: _ =>
    match v0.addresses with
    | a0 :: _ => a0 = "CoinStake TX"
    | [] => false
  | [] => false

/-- The method's reward construction: keep the CoinStake transactions, map
each to `{id, time, blockHeight, amount = (txSum(vout) - txSum(vin))/COIN}`,
and drop the entries with `amount == 0`. -/
def computeNewRewards (mapPaths : List (String × String))
    (txs : List RewardTx) : List StakingReward :=
  ((txs.filter isCoinStakeTx).map
    (fun tx =>
      { id := tx.txid
        time := tx.blockTime
        blockHeight := tx.blockHeight
        amount := ((txSum mapPaths tx.vout - txSum mapPaths tx.vin : Int) : ℚ) / COIN })).filter
    (fun tx => tx.amount ≠ 0)

/-- JavaScript `const nHeight = this.arrRewards.length ? this.arrRewards[len-1].blockHeight : 0`. -/
def rewardsLastHeight (arrRewards : List StakingReward) : Int :=
  match arrRewards.getLast? with
  | some r => r.blockHeight
  | none => 0

/-- The `to=` upper height bound of the explorer query:
`nHeight ? nHeight - 1 : 0` (0 is the only falsy height). -/
def rewardsQueryTo (arrRewards : List StakingReward) : Int :=
  let nHeight := rewardsLastHeight arrRewards
  if nHeight ≠ 0 then nHeight - 1 else 0

/-- Method `ExplorerNetwork.getStakingRewards()`, given the transactions of the
parsed explorer reply (`none` when `cData` is falsy or has no
`transactions` field) and the address-to-path map the method built:
return early when disabled or without a master key, otherwise concatenate
the newly computed rewards onto `this.arrRewards`. -/
def ExplorerNetwork.getStakingRewards (s : ExplorerNetwork)
    (mapPaths : List (String × String)) (respTxs : Option (List RewardTx)) :
    ExplorerNetwork :=
  if ¬s.enabled ∨ s.masterKey = none then s
  else
    match respTxs with
    | some txs =>
      { s with arrRewards := s.arrRewards ++ computeNewRewards mapPaths txs }
    | none => s

/-! ### The duplicated top-level `getStakingRewards` left in `network.js`

The dead top-level function works on module globals (`networkEnabled`,
`masterKey`, `arrRewards`) instead of `this`, but contains the same
computation. It is transcribed separately below so the two can be
compared. -/

/-- The top-level function's `txSum` (transcribed from the dead code at the
bottom of `network.js`). -/
def txSumTop (mapPaths : List (String × String)) (v : List TxAddrValue) : Int :=
  v.foldl
    (fun t s =>
      t +
        (if (s.addresses.filter (pathTruthy mapPaths)).length ≠ 0 ∧
            s.addresses.length = 2
          then s.value else 0))
    0

/-- The top-level function's reward construction: filter on
`tx.vout[0].addresses[0] === 'CoinStake TX'`, map to the record, drop
zero amounts. -/
def computeNewRewardsTop (mapPaths : List (String × String))
    (txs : List RewardTx) : List StakingReward :=
  ((txs.filter isCoinStakeTx).map
    (fun tx =>
      { id := tx.txid
        time := tx.blockTime
        blockHeight := tx.blockHeight
        amount := ((txSumTop mapPaths tx.vout - txSumTop mapPaths tx.vin : Int) : ℚ) / COIN })).filter
    (fun tx => tx.amount ≠ 0)

/-- The dead top-level `getStakingRewards`:
`if (!networkEnabled || masterKey == undefined) return;` then the same
update of the global `arrRewards`. Returns the updated rewards list. -/
def getStakingRewardsTop (networkEnabled : Bool) (masterKey : Option MasterKey)
    (arrRewards : List StakingReward) (mapPaths : List (String × String))
    (respTxs : Option (List RewardTx)) : List StakingReward :=
  if ¬networkEnabled ∨ masterKey = none then arrRewards
  else
    match respTxs with
    | some txs => arrRewards ++ computeNewRewardsTop mapPaths txs
    | none => arrRewards

/-! ### `global.js`: masternode helpers -/

/-- The masternode record persisted as a JSON blob in local storage:
`{walletPrivateKeyPath, mnPrivateKey, collateralTxId, outidx, addr}`. -/
structure Masternode where
  walletPrivateKeyPath : String
  mnPrivateKey : String
  collateralTxId : String
  outidx : Int
  addr : String
  deriving DecidableEq, Repr

/-- Function `isMasternodeUTXO(cUTXO, masternode = null)`:
`const cMasternode = masternode || JSON.parse(localStorage.getItem("masternode"))`
(the argument when given, otherwise the stored blob, `null` parsing to
`null`); with a masternode, compare `collateralTxId === cUTXO.id` and
`cUTXO.vout === outidx`; with none, return `false`. -/
def isMasternodeUTXO (cUTXO : UTXO) (masternode : Option Masternode)
    (stored : Option Masternode) : Bool :=
  match masternode.orElse (fun _ => stored) with
  | some cMasternode =>
    cMasternode.collateralTxId = cUTXO.id ∧ cUTXO.vout = cMasternode.outidx
  | none => false

/-- The local-storage and control-flow effect of `updateMasternodeTab()`:
the guards return early when no master key is loaded, when the key is a
hardware wallet, or when `mempool.getConfirmed()` is empty; past them, a
stored masternode whose collateral is matched by no confirmed UTXO is
removed from local storage. Returns the storage after the call and whether
the call proceeded past the guards to the dashboard-state region. -/
def updateMasternodeTab (masterKeyLoaded isHardwareWallet : Bool)
    (confirmed : List UTXO) (stored : Option Masternode) :
    Option Masternode × Bool :=
  if ¬masterKeyLoaded then (stored, false)
  else if isHardwareWallet then (stored, false)
  else if confirmed.length = 0 then (stored, false)
  else
    match stored with
    | some cMasternode =>
      if (confirmed.find? (fun utxo =>
            isMasternodeUTXO utxo (some cMasternode) none)).isSome then
        (some cMasternode, true)
      else
        (none, true)
    | none => (none, true)

/-! ### `global.js`: `createMasternode` broadcast stage

`mempool.js` is not under `src/`; from the spec, the mempool owns the
in-memory UTXO set, UTXOs are "removed when spent (`autoRemoveUTXO`)" and
"created on explorer fetch or optimistic post-broadcast insertion". The
set is modelled as a list. -/

/-- Modelled from the spec: `mempool.autoRemoveUTXO({id, path, vout})` of
the missing `mempool.js` removes the spent UTXO identified by its txid and
output index from the in-memory UTXO set. -/
def Mempool.autoRemoveUTXO (m : List UTXO) (id : String) (vout : Int) :
    List UTXO :=
  m.filter (fun u => ¬(u.id = id ∧ u.vout = vout))

/-- Modelled from the spec: `mempool.addUTXO(...)` of the missing
`mempool.js` inserts a new UTXO into the in-memory UTXO set. -/
def Mempool.addUTXO (m : List UTXO) (u : UTXO) : List UTXO :=
  m ++ [u]

/-- One input of the constructed transaction as `createMasternode` uses it:
`tx.outpoint.hash`, `tx.outpoint.index` and `tx.path`. -/
structure TxInput where
  hash : String
  index : Int
  path : String
  deriving DecidableEq, Repr

/-- The fields of the optimistic post-broadcast insertion that
`createMasternode` does not pass to `mempool.addUTXO` (`height`,
`isDelegate`, `isReward`) take the defaults of the missing `mempool.js`;
modelled from the spec's UTXO data model as absent/zero values. -/
def optimisticUTXO (id : String) (path : String) (sats : Int) (vout : Int)
    (script : String) : UTXO :=
  { id := id
    path := some path
    sats := sats
    vout := vout
    script := script
    height := 0
    status := UtxoStatus.PENDING
    isDelegate := false
    isReward := false }

/-- The post-broadcast mempool update of `createMasternode`: when
`sendTransaction` returned `true`, remove every input of the constructed
transaction via `mempool.autoRemoveUTXO` and insert the change output
(vout 0, `nChange` sats, change path/script) and the collateral output
(vout 1, `nValue` sats, receiver path/script) under the future txid, both
`Mempool.PENDING`; when it returned `false`, leave the mempool as is. -/
def createMasternodeBroadcast (m : List UTXO) (result : Bool)
    (inputs : List TxInput) (futureTxid : String)
    (changeAddressPath strAddressPath changeScript collateralScript : String)
    (nChange nValue : Int) : List UTXO :=
  if result then
    let m1 := inputs.foldl
      (fun acc tx => Mempool.autoRemoveUTXO acc tx.hash tx.index) m
    let m2 := Mempool.addUTXO m1
      (optimisticUTXO futureTxid changeAddressPath nChange 0 changeScript)
    Mempool.addUTXO m2
      (optimisticUTXO futureTxid strAddressPath nValue 1 collateralScript)
  else m

/-! ### Concrete sample values, used to instantiate the theorems below -/

/-- A sample non-HD software master key. -/
def sampleKey : MasterKey :=
  { isHD := false, isHardwareWallet := false, keyData := "key1" }

/-- A second, distinct master key. -/
def sampleKey2 : MasterKey :=
  { isHD := true, isHardwareWallet := false, keyData := "key2" }

/-- A sample enabled network state at cached height 5. -/
def sampleNet : ExplorerNetwork :=
  { strUrl := "https://explorer.example"
    enabled := true
    masterKey := some sampleKey
    lastWallet := 0
    blocks := 5
    arrRewards := [] }

/-- A stored staking reward whose `blockHeight` is 0. -/
def zeroHeightReward : StakingReward :=
  { id := "t0", time := 10, blockHeight := 0, amount := 1 }

/-- A network state whose last (only) stored reward has `blockHeight` 0. -/
def netZeroHeight : ExplorerNetwork :=
  { sampleNet with arrRewards := [zeroHeightReward] }

/-- A standard pay-to-pubkey-hash output of value 1.5 coins with an empty
script hex. -/
def sampleVout : TxSpecVout :=
  { value := 3 / 2, n := 0, scriptPubKey := { hex := "", kind := "pubkeyhash" } }

/-- A sample `tx-specific` reply with 3 confirmations. -/
def sampleTxSpec : TxSpecific :=
  { vout := [sampleVout], confirmations := 3 }

/-- A sample UTXO reference pointing at output 0. -/
def sampleRef : UTXORef :=
  { txid := "aabb", vout := 0, path := none }

/-- A confirmed UTXO that a sample transaction spends. -/
def sampleSpentUTXO : UTXO :=
  { id := "prev", path := some "m/1", sats := 10100000000, script := "s0",
    vout := 0, height := 3, status := UtxoStatus.CONFIRMED,
    isDelegate := false, isReward := false }

/-- A stored masternode whose collateral outpoint matches no confirmed
UTXO of the sample mempool. -/
def staleMasternode : Masternode :=
  { walletPrivateKeyPath := "m/0", mnPrivateKey := "mnkey",
    collateralTxId := "gone", outidx := 1, addr := "1.2.3.4:51472" }

/-!
## Theorems
-/

/-- C1: the cached block height is monotonically non-decreasing:
`getBlockCount` overwrites `this.blocks` only when the fetched height is
strictly greater than the cached one, and exactly in that case emits
`'sync-status'` and triggers the UTXO fetch; otherwise the state is
unchanged and no event is emitted. -/
theorem C1_getBlockCount_monotone (s : ExplorerNetwork) (fetched : Int) :
    (fetched > s.blocks →
      (s.getBlockCount fetched).1.blocks = fetched ∧
      (s.getBlockCount fetched).2.1 = [Event.syncStatus] ∧
      (s.getBlockCount fetched).2.2 = true) ∧
    (fetched ≤ s.blocks →
      (s.getBlockCount fetched).1 = s ∧
      (s.getBlockCount fetched).2.1 = [] ∧
      (s.getBlockCount fetched).2.2 = false) ∧
    s.blocks ≤ (s.getBlockCount fetched).1.blocks := by
  unfold ExplorerNetwork.getBlockCount
  by_cases h : fetched > s.blocks
  all_goals simp [h]
  all_goals omega

/-- C1 witness: at height 5, fetching 9 overwrites the cache and fetching
3 leaves the state untouched. -/
theorem C1_getBlockCount_monotone_witness :
    (sampleNet.getBlockCount 9).1.blocks = 9 ∧
    (sampleNet.getBlockCount 3).1 = sampleNet := by
  constructor
  · exact ((C1_getBlockCount_monotone sampleNet 9).1 (by decide)).1
  · exact ((C1_getBlockCount_monotone sampleNet 3).2.1 (by decide)).1

/-- C9: `'network-toggle'` is emitted exactly when the `enabled` flag
changes: writing the current value is a no-op, writing the opposite value
emits exactly one event carrying the new value; hence `error()` disables
the network and raises an alert only when currently enabled, and a second
consecutive `error()` call is a no-op. -/
theorem C9_networkToggle_iff_change (s : ExplorerNetwork) (v : Bool) :
    (v = s.enabled → Network.setEnabled s v = (s, [])) ∧
    (v ≠ s.enabled →
      Network.setEnabled s v =
        ({ s with enabled := v }, [Event.networkToggle v])) ∧
    (s.enabled = true →
      (ExplorerNetwork.errorHandler s).1.enabled = false ∧
      (ExplorerNetwork.errorHandler s).2.1 = [Event.networkToggle false] ∧
      (ExplorerNetwork.errorHandler s).2.2 = 1) ∧
    (s.enabled = false → ExplorerNetwork.errorHandler s = (s, [], 0)) ∧
    ExplorerNetwork.errorHandler (ExplorerNetwork.errorHandler s).1 =
      ((ExplorerNetwork.errorHandler s).1, [], 0) := by
  unfold ExplorerNetwork.errorHandler Network.disable Network.setEnabled
  cases hv : s.enabled <;> cases v <;> simp_all

/-- C9 witness: on the enabled sample state, re-enabling is a no-op and
`error()` raises exactly one alert while disabling. -/
theorem C9_networkToggle_iff_change_witness :
    Network.setEnabled sampleNet true = (sampleNet, []) ∧
    (ExplorerNetwork.errorHandler sampleNet).1.enabled = false ∧
    (ExplorerNetwork.errorHandler sampleNet).2.2 = 1 := by
  refine ⟨?_, ?_, ?_⟩
  · exact (C9_networkToggle_iff_change sampleNet true).1 (by decide)
  · exact ((C9_networkToggle_iff_change sampleNet true).2.2.1 (by decide)).1
  · exact ((C9_networkToggle_iff_change sampleNet true).2.2.1 (by decide)).2.2

/-- C10: `ExplorerNetwork.setMasterKey(k)` stores `k`, empties
`arrRewards`, and modifies no other field of the network object. -/
theorem C10_setMasterKey_resets_rewards (s : ExplorerNetwork) (k : MasterKey) :
    (s.setMasterKey k).masterKey = some k ∧
    (s.setMasterKey k).arrRewards = [] ∧
    (s.setMasterKey k).strUrl = s.strUrl ∧
    (s.setMasterKey k).enabled = s.enabled ∧
    (s.setMasterKey k).lastWallet = s.lastWallet ∧
    (s.setMasterKey k).blocks = s.blocks :=
  ⟨rfl, rfl, rfl, rfl, rfl, rfl⟩

/-- C2 counterexample: on an enabled state with a master key whose last
stored reward has `blockHeight` 0, the query's upper bound computed by the
code is 0, not the claimed `blockHeight - 1 = -1` (JavaScript's
`nHeight ? nHeight - 1 : 0` treats the height 0 as falsy). -/
theorem C2_queryTo_counterexample :
    netZeroHeight.enabled = true ∧
    netZeroHeight.masterKey = some sampleKey ∧
    netZeroHeight.arrRewards.getLast? = some zeroHeightReward ∧
    ¬(rewardsQueryTo netZeroHeight.arrRewards =
        zeroHeightReward.blockHeight - 1) := by
  refine ⟨rfl, rfl, rfl, ?_⟩
  decide

/-- C2 (amended): with the network enabled and a master key set,
`getStakingRewards` only appends to `arrRewards` (the previous list is a
prefix of the new one), and the query's upper height bound is the last
stored reward's `blockHeight` minus one when that height is nonzero, and 0
when the list is empty or the last stored height is 0. -/
theorem C2_rewards_append_incremental (s : ExplorerNetwork) (k : MasterKey)
    (mapPaths : List (String × String)) (respTxs : Option (List RewardTx))
    (hEn : s.enabled = true) (hK : s.masterKey = some k) :
    (∃ newRewards,
      (s.getStakingRewards mapPaths respTxs).arrRewards =
        s.arrRewards ++ newRewards) ∧
    (s.arrRewards = [] → rewardsQueryTo s.arrRewards = 0) ∧
    (∀ r, s.arrRewards.getLast? = some r → r.blockHeight ≠ 0 →
      rewardsQueryTo s.arrRewards = r.blockHeight - 1) ∧
    (∀ r, s.arrRewards.getLast? = some r → r.blockHeight = 0 →
      rewardsQueryTo s.arrRewards = 0) := by
  refine ⟨?_, ?_, ?_, ?_⟩
  · unfold ExplorerNetwork.getStakingRewards
    have hguard : ¬(¬s.enabled ∨ s.masterKey = none) := by
      simp [hEn, hK]
    rw [if_neg hguard]
    cases respTxs with
    | none => exact ⟨[], (List.append_nil _).symm⟩
    | some txs => exact ⟨computeNewRewards mapPaths txs, rfl⟩
  · intro hnil
    simp [rewardsQueryTo, rewardsLastHeight, hnil]
  · intro r hr hne
    simp [rewardsQueryTo, rewardsLastHeight, hr, hne]
  · intro r hr hz
    simp [rewardsQueryTo, rewardsLastHeight, hr, hz]

/-- C2 witness: on the enabled sample state with an empty rewards list and
an empty reply, the update appends nothing and the query bound is 0. -/
theorem C2_rewards_append_incremental_witness :
    (∃ newRewards,
      (sampleNet.getStakingRewards [] none).arrRewards =
        sampleNet.arrRewards ++ newRewards) ∧
    rewardsQueryTo sampleNet.arrRewards = 0 := by
  have h := C2_rewards_append_incremental sampleNet sampleKey [] none rfl rfl
  exact ⟨h.1, h.2.1 rfl⟩

/-- C4: `sendTransaction` returns `true` and emits `'transaction-sent'`
carrying `true` exactly when the parsed reply's `result` is a string of
length 64; otherwise it returns `false` and emits `'transaction-sent'`
carrying `false` together with the reply's `error` field. -/
theorem C4_sendTransaction_result (data : SendTxResponse) :
    ((∃ r, data.result = some r ∧ r.length = 64) →
      ExplorerNetwork.sendTransaction data =
        (true, [Event.transactionSent true none])) ∧
    (¬(∃ r, data.result = some r ∧ r.length = 64) →
      ExplorerNetwork.sendTransaction data =
        (false, [Event.transactionSent false data.error])) := by
  unfold ExplorerNetwork.sendTransaction
  cases hres : data.result with
  | none => simp
  | some r =>
    by_cases hlen : r.length = 64
    · have hne : r ≠ "" := by
        intro h
        rw [h] at hlen
        simp at hlen
      simp [hlen, hne]
    · simp [hlen]

/-- C4 witness: a 64-character txid yields success, an error reply yields
failure carrying the error. -/
theorem C4_sendTransaction_result_witness :
    ExplorerNetwork.sendTransaction
        { result := some (String.mk (List.replicate 64 'a')), error := none } =
      (true, [Event.transactionSent true none]) ∧
    ExplorerNetwork.sendTransaction
        { result := none, error := some "bad-txn" } =
      (false, [Event.transactionSent false (some "bad-txn")]) := by
  constructor
  · exact (C4_sendTransaction_result
      { result := some (String.mk (List.replicate 64 'a')), error := none }).1
      ⟨_, rfl, by decide⟩
  · exact (C4_sendTransaction_result
      { result := none, error := some "bad-txn" }).2 (by simp)

/-- C7: with a masternode record (given or stored), `isMasternodeUTXO`
returns `true` exactly when the masternode's `collateralTxId` equals the
UTXO's `id` and the UTXO's `vout` equals the masternode's `outidx`; with
neither given nor stored it returns `false`. -/
theorem C7_isMasternodeUTXO_spec (cUTXO : UTXO) (c : Masternode)
    (stored : Option Masternode) :
    (isMasternodeUTXO cUTXO (some c) stored = true ↔
      (c.collateralTxId = cUTXO.id ∧ cUTXO.vout = c.outidx)) ∧
    isMasternodeUTXO cUTXO none none = false := by
  constructor
  · simp [isMasternodeUTXO, Option.orElse]
  · simp [isMasternodeUTXO, Option.orElse]

/-- C8: the duplicated dead top-level `getStakingRewards` in `network.js`
computes the same rewards-list update as the `ExplorerNetwork` method:
given the same enabled flag, master key, prior rewards, address map and
explorer reply, the two produce the same resulting rewards list. -/
theorem C8_dead_getStakingRewards_equivalent (s : ExplorerNetwork)
    (mapPaths : List (String × String)) (respTxs : Option (List RewardTx)) :
    (s.getStakingRewards mapPaths respTxs).arrRewards =
      getStakingRewardsTop s.enabled s.masterKey s.arrRewards mapPaths
        respTxs := by
  unfold ExplorerNetwork.getStakingRewards getStakingRewardsTop
  by_cases h : ¬s.enabled ∨ s.masterKey = none
  · rw [if_pos h, if_pos h]
  · rw [if_neg h, if_neg h]
    cases respTxs with
    | none => rfl
    | some txs => rfl

/-- Unfolding equation for `getUTXOFullInfo` once the selected output and
the first output are known to exist. -/
theorem getUTXOFullInfo_eq (s : ExplorerNetwork) (hw : Bool) (b bl : Int)
    (cUTXO : UTXORef) (cTx : TxSpecific) (cVout v0 : TxSpecVout)
    (hv : cTx.vout.get? cUTXO.vout = some cVout)
    (h0 : cTx.vout.get? 0 = some v0) :
    s.getUTXOFullInfo hw b bl cUTXO cTx =
      if ¬cVout.scriptPubKey.kind = "coldstake" ∧
          ¬cVout.scriptPubKey.kind = "pubkeyhash" then none
      else
        some
          { id := cUTXO.txid
            path := cUTXO.path.map (rewritePath hw b bl)
            sats := jsRound (cVout.value * COIN)
            script := cVout.scriptPubKey.hex
            vout := cVout.n
            height := s.blocks - (cTx.confirmations - 1)
            status := if cTx.confirmations < 1 then UtxoStatus.PENDING
                      else UtxoStatus.CONFIRMED
            isDelegate := cVout.scriptPubKey.kind = "coldstake"
            isReward := v0.scriptPubKey.hex = "" } := by
  unfold ExplorerNetwork.getUTXOFullInfo
  rw [hv, h0]

/-- C3: on a fetched transaction whose selected output exists, the method
returns `null` when the output type is neither `'coldstake'` nor
`'pubkeyhash'`; otherwise it returns a UTXO that is `PENDING` exactly when
the transaction has fewer than 1 confirmations (`CONFIRMED` otherwise),
is a delegate exactly when the type is `'coldstake'`, is a reward exactly
when the first output's script hex is empty, has
`sats = round(value * COIN)` and
`height = cachedBlockCount - (confirmations - 1)`. -/
theorem C3_getUTXOFullInfo_spec (s : ExplorerNetwork) (hw : Bool)
    (b bl : Int) (cUTXO : UTXORef) (cTx : TxSpecific)
    (cVout v0 : TxSpecVout)
    (hv : cTx.vout.get? cUTXO.vout = some cVout)
    (h0 : cTx.vout.get? 0 = some v0) :
    (¬(cVout.scriptPubKey.kind = "coldstake" ∨
        cVout.scriptPubKey.kind = "pubkeyhash") →
      s.getUTXOFullInfo hw b bl cUTXO cTx = none) ∧
    ((cVout.scriptPubKey.kind = "coldstake" ∨
        cVout.scriptPubKey.kind = "pubkeyhash") →
      ∃ u, s.getUTXOFullInfo hw b bl cUTXO cTx = some u ∧
        (u.status = UtxoStatus.PENDING ↔ cTx.confirmations < 1) ∧
        (¬cTx.confirmations < 1 → u.status = UtxoStatus.CONFIRMED) ∧
        (u.isDelegate = true ↔ cVout.scriptPubKey.kind = "coldstake") ∧
        (u.isReward = true ↔ v0.scriptPubKey.hex = "") ∧
        u.sats = jsRound (cVout.value * COIN) ∧
        u.height = s.blocks - (cTx.confirmations - 1)) := by
  rw [getUTXOFullInfo_eq s hw b bl cUTXO cTx cVout v0 hv h0]
  constructor
  · intro hnot
    have h1 : ¬cVout.scriptPubKey.kind = "coldstake" := fun h => hnot (Or.inl h)
    have h2 : ¬cVout.scriptPubKey.kind = "pubkeyhash" := fun h => hnot (Or.inr h)
    rw [if_pos ⟨h1, h2⟩]
  · intro hyes
    have hcond : ¬(¬cVout.scriptPubKey.kind = "coldstake" ∧
        ¬cVout.scriptPubKey.kind = "pubkeyhash") := by
      rcases hyes with h | h <;> simp [h]
    rw [if_neg hcond]
    refine ⟨_, rfl, ?_, ?_, ?_, ?_, rfl, rfl⟩
    · by_cases hc : cTx.confirmations < 1 <;> simp [hc]
    · intro hc
      simp [hc]
    · simp
    · simp

/-- C3 witness: evaluating the method on the sample transaction yields a
confirmed reward UTXO of 150000000 sats at height 3. -/
theorem C3_getUTXOFullInfo_spec_witness :
    ∃ u, sampleNet.getUTXOFullInfo false 119 77 sampleRef sampleTxSpec =
        some u ∧
      u.status = UtxoStatus.CONFIRMED ∧
      u.sats = jsRound (sampleVout.value * COIN) ∧
      u.height = sampleNet.blocks - (sampleTxSpec.confirmations - 1) := by
  obtain ⟨u, hu, hp, hconf, hdel, hrew, hsats, hh⟩ :=
    (C3_getUTXOFullInfo_spec sampleNet false 119 77 sampleRef sampleTxSpec
      sampleVout sampleVout rfl rfl).2 (Or.inr rfl)
  exact ⟨u, hu, hconf (by decide), hsats, hh⟩

/-- Each UTXO surviving the fold of `autoRemoveUTXO` over the inputs was
already in the mempool. -/
theorem foldlRemove_subset (inputs : List TxInput) (m : List UTXO) :
    ∀ u ∈ inputs.foldl
        (fun acc tx => Mempool.autoRemoveUTXO acc tx.hash tx.index) m,
      u ∈ m := by
  induction inputs generalizing m with
  | nil => simp
  | cons t rest ih =>
    intro u hu
    have hmem := ih (Mempool.autoRemoveUTXO m t.hash t.index) u hu
    exact (List.mem_filter.mp hmem).1

/-- After the fold of `autoRemoveUTXO` over the inputs, no surviving UTXO
matches any input's outpoint. -/
theorem foldlRemove_removes (inputs : List TxInput) (m : List UTXO) :
    ∀ tx ∈ inputs,
      ∀ u ∈ inputs.foldl
          (fun acc tx => Mempool.autoRemoveUTXO acc tx.hash tx.index) m,
        ¬(u.id = tx.hash ∧ u.vout = tx.index) := by
  induction inputs generalizing m with
  | nil => simp
  | cons t rest ih =>
    intro tx htx u hu
    rcases List.mem_cons.mp htx with h | h
    · subst h
      have hmem : u ∈ Mempool.autoRemoveUTXO m tx.hash tx.index :=
        foldlRemove_subset rest _ u hu
      have h2 := (List.mem_filter.mp hmem).2
      simp at h2
      tauto
    · exact ih _ tx h u hu

/-- C5: `createMasternode` updates the UTXO set optimistically and
atomically with respect to broadcast: on success every input of the
constructed transaction is removed via `autoRemoveUTXO` and exactly two
`PENDING` UTXOs are appended under the future txid — the change output at
vout 0 and the collateral output at vout 1; on failure the mempool is
unchanged. -/
theorem C5_createMasternode_optimistic (m : List UTXO) (result : Bool)
    (inputs : List TxInput) (futureTxid changeAddressPath strAddressPath
      changeScript collateralScript : String) (nChange nValue : Int) :
    (result = false →
      createMasternodeBroadcast m result inputs futureTxid changeAddressPath
        strAddressPath changeScript collateralScript nChange nValue = m) ∧
    (result = true →
      ∃ m1,
        createMasternodeBroadcast m result inputs futureTxid
            changeAddressPath strAddressPath changeScript collateralScript
            nChange nValue =
          m1 ++
            [optimisticUTXO futureTxid changeAddressPath nChange 0
              changeScript,
             optimisticUTXO futureTxid strAddressPath nValue 1
              collateralScript] ∧
        (∀ u ∈ m1, u ∈ m) ∧
        (∀ tx ∈ inputs, ∀ u ∈ m1,
          ¬(u.id = tx.hash ∧ u.vout = tx.index)) ∧
        (optimisticUTXO futureTxid changeAddressPath nChange 0
            changeScript).status = UtxoStatus.PENDING ∧
        (optimisticUTXO futureTxid changeAddressPath nChange 0
            changeScript).id = futureTxid ∧
        (optimisticUTXO futureTxid changeAddressPath nChange 0
            changeScript).vout = 0 ∧
        (optimisticUTXO futureTxid strAddressPath nValue 1
            collateralScript).status = UtxoStatus.PENDING ∧
        (optimisticUTXO futureTxid strAddressPath nValue 1
            collateralScript).id = futureTxid ∧
        (optimisticUTXO futureTxid strAddressPath nValue 1
            collateralScript).vout = 1) := by
  constructor
  · intro hres
    subst hres
    rfl
  · intro hres
    subst hres
    refine ⟨inputs.foldl
      (fun acc tx => Mempool.autoRemoveUTXO acc tx.hash tx.index) m,
      ?_, ?_, ?_, rfl, rfl, rfl, rfl, rfl, rfl⟩
    · simp [createMasternodeBroadcast, Mempool.addUTXO]
    · exact foldlRemove_subset inputs m
    · exact foldlRemove_removes inputs m

/-- C5 witness: with one spent input, a successful broadcast leaves the
input outside the resulting set and appends the two pending outputs, while
a failed broadcast changes nothing. -/
theorem C5_createMasternode_optimistic_witness :
    (createMasternodeBroadcast [sampleSpentUTXO] false
        [{ hash := "prev", index := 0, path := "m/1" }] "future" "m/2" "m/3"
        "sc" "sd" 99999000 10000000000 = [sampleSpentUTXO]) ∧
    ∃ m1,
      createMasternodeBroadcast [sampleSpentUTXO] true
          [{ hash := "prev", index := 0, path := "m/1" }] "future" "m/2"
          "m/3" "sc" "sd" 99999000 10000000000 =
        m1 ++
          [optimisticUTXO "future" "m/2" 99999000 0 "sc",
           optimisticUTXO "future" "m/3" 10000000000 1 "sd"] ∧
      (∀ tx ∈ [({ hash := "prev", index := 0, path := "m/1" } : TxInput)],
        ∀ u ∈ m1, ¬(u.id = tx.hash ∧ u.vout = tx.index)) := by
  have h := C5_createMasternode_optimistic [sampleSpentUTXO] false
    [{ hash := "prev", index := 0, path := "m/1" }] "future" "m/2" "m/3"
    "sc" "sd" 99999000 10000000000
  have h2 := C5_createMasternode_optimistic [sampleSpentUTXO] true
    [{ hash := "prev", index := 0, path := "m/1" }] "future" "m/2" "m/3"
    "sc" "sd" 99999000 10000000000
  refine ⟨h.1 rfl, ?_⟩
  obtain ⟨m1, heq, _, hrem, _⟩ := h2.2 rfl
  exact ⟨m1, heq, hrem⟩

/-- C6: past the guards of `updateMasternodeTab` (master key loaded, not a
hardware wallet, nonempty confirmed set — the only path on which dashboard
state is shown), a stored masternode whose collateral is matched by no
confirmed UTXO is removed from local storage. -/
theorem C6_updateMasternodeTab_collateral (masterKeyLoaded hw : Bool)
    (confirmed : List UTXO) (c : Masternode)
    (hmatch : ∀ u ∈ confirmed, isMasternodeUTXO u (some c) none = false) :
    (updateMasternodeTab masterKeyLoaded hw confirmed (some c)).2 = true →
    (updateMasternodeTab masterKeyLoaded hw confirmed (some c)).1 = none := by
  unfold updateMasternodeTab
  by_cases h1 : ¬masterKeyLoaded
  · simp [h1]
  by_cases h2 : hw
  · simp [h1, h2]
  by_cases h3 : confirmed.length = 0
  · simp [h1, h2, h3]
  have hfind : confirmed.find?
      (fun utxo => isMasternodeUTXO utxo (some c) none) = none := by
    rw [List.find?_eq_none]
    intro u hu
    simp [hmatch u hu]
  simp [h1, h2, h3, hfind]

/-- C6 witness: with one confirmed UTXO not matching the stale
masternode's collateral, the stored blob is removed on the dashboard
path. -/
theorem C6_updateMasternodeTab_collateral_witness :
    (updateMasternodeTab true false [sampleSpentUTXO]
        (some staleMasternode)).1 = none := by
  refine C6_updateMasternodeTab_collateral true false [sampleSpentUTXO]
    staleMasternode ?_ ?_
  · intro u hu
    rcases List.mem_singleton.mp hu with rfl
    decide
  · decide

end MPW
